import Mathlib

/-
Shallow embedding of src/scanner.py (the "copybot" scanner bot).

JSON payloads decoded from HTTP responses are modelled by the inductive type
JValue; numbers are modelled as rationals (Python floats are abstracted to
exact rationals; float infinities and NaN are outside the model).  Python
exceptions are modelled explicitly by the PyErr type, and every translated
function returns an Except PyErr value: a .error result means the Python
function raises that exception, an .ok result means it returns normally.
The mutable module state of the script (the cached Bitquery access token and
its expiry) is threaded explicitly as a BQState value, and each outbound
HTTP call is modelled by an HttpResp input describing what the network
returned for that call.
-/

namespace CopyBot

/-- JSON-like values decoded from provider responses. -/
inductive JValue where
  | null
  | bool (b : Bool)
  | num (q : ℚ)
  | str (s : String)
  | arr (xs : List JValue)
  | obj (kvs : List (String × JValue))

/-- The Python exceptions that the functions of scanner.py can raise. -/
inductive PyErr where
  | requestException
  | jsonDecodeError
  | keyError
  | attributeError
  | typeError
  | valueError
  | indexError
  | nameError
deriving DecidableEq

/-- Outcome of one outbound HTTP call: a transport failure (the client library
raises), or a response with a status code and a body that either decodes as
JSON (some payload) or does not (none). -/
inductive HttpResp where
  | transportError
  | ok (status : Nat) (body : Option JValue)

/-- Python truthiness of a decoded JSON value. -/
def jtruthy : JValue → Bool
  | .null => false
  | .bool b => b
  | .num q => decide (q ≠ 0)
  | .str s => !s.isEmpty
  | .arr xs => !xs.isEmpty
  | .obj kvs => !kvs.isEmpty

/-- Key lookup in a decoded JSON object, first match wins. -/
def jlookup (kvs : List (String × JValue)) (k : String) : Option JValue :=
  (kvs.find? (fun p => p.1 == k)).map (fun p => p.2)

/-- Python d.get(k, default): returns the default when the key is absent and
raises AttributeError when the receiver is not a dict. -/
def pyGetD (v : JValue) (k : String) (d : JValue) : Except PyErr JValue :=
  match v with
  | .obj kvs => .ok ((jlookup kvs k).getD d)
  | _ => .error .attributeError

/-- Python d[k] with a string key: KeyError when the key is absent, TypeError
when the receiver is a list or another non-dict value. -/
def pyIndexKey (v : JValue) (k : String) : Except PyErr JValue :=
  match v with
  | .obj kvs =>
    match jlookup kvs k with
    | some x => .ok x
    | none => .error .keyError
  | _ => .error .typeError

/-- Python xs[0]: first element of a list, first character of a string;
IndexError when empty; a JSON-decoded dict has no key 0, hence KeyError;
TypeError on the remaining values. -/
def pyIndex0 : JValue → Except PyErr JValue
  | .arr [] => .error .indexError
  | .arr (x :: _) => .ok x
  | .str s =>
    match s.toList with
    | [] => .error .indexError
    | c :: _ => .ok (.str (String.mk [c]))
  | .obj _ => .error .keyError
  | _ => .error .typeError

/-- All-digit string segment to a natural number; none when empty or when a
non-digit occurs. -/
def parseDigits (cs : List Char) : Option Nat :=
  match cs with
  | [] => none
  | _ =>
    if cs.all Char.isDigit then
      some (cs.foldl (fun n c => 10 * n + (c.toNat - 48)) 0)
    else none

/-- Decimal parser approximating Python float(str): surrounding whitespace,
an optional sign, digits with an optional fractional part.  Exponent
notation, "inf" and "nan" are outside the model. -/
def strToQ (s : String) : Option ℚ :=
  let t := s.trim
  let su :=
    if t.startsWith "-" then ((-1 : ℚ), t.drop 1)
    else if t.startsWith "+" then ((1 : ℚ), t.drop 1)
    else ((1 : ℚ), t)
  match (su.2).splitOn "." with
  | [ip] => (parseDigits ip.toList).map (fun n => su.1 * n)
  | [ip, fp] =>
    if ip.isEmpty && fp.isEmpty then none
    else
      let ipn := if ip.isEmpty then some 0 else parseDigits ip.toList
      let fpn := if fp.isEmpty then some 0 else parseDigits fp.toList
      match ipn, fpn with
      | some a, some b => some (su.1 * ((a : ℚ) + (b : ℚ) / (10 : ℚ) ^ fp.length))
      | _, _ => none
  | _ => none

/-- Python float(x): numbers pass through, booleans convert to 0 or 1,
strings are parsed (ValueError when unparsable); None, lists and dicts
raise TypeError. -/
def pyFloatQ : JValue → Except PyErr ℚ
  | .num q => .ok q
  | .bool b => .ok (if b then 1 else 0)
  | .str s =>
    match strToQ s with
    | some q => .ok q
    | none => .error .valueError
  | .null => .error .typeError
  | .arr _ => .error .typeError
  | .obj _ => .error .typeError

/-- Floor of a rational as an integer (flooring division of the numerator by
the denominator). -/
def ratFloor (q : ℚ) : ℤ :=
  Int.fdiv q.num q.den

/-- Round a rational to the nearest integer, ties to even, as Python's fixed
point formatting does. -/
def roundHalfEven (q : ℚ) : ℤ :=
  let f := ratFloor q
  let r := q - (f : ℚ)
  if r < 1 / 2 then f
  else if r > 1 / 2 then f + 1
  else if f % 2 = 0 then f else f + 1

/-- Split a reversed digit list into groups of three, least significant
group first. -/
def chunk3 : List Char → List (List Char)
  | [] => []
  | [a] => [[a]]
  | [a, b] => [[a, b]]
  | a :: b :: c :: rest => [a, b, c] :: chunk3 rest

/-- Render a natural number with comma separators every three digits. -/
def natToCommaString (n : Nat) : String :=
  let rev := (toString n).toList.reverse
  let parts := (chunk3 rev).map (fun p => String.mk p.reverse)
  String.intercalate "," parts.reverse

/-- Two-digit zero-padded rendering of a value below 100. -/
def twoDigits (n : Nat) : String :=
  (if n < 10 then "0" else "") ++ toString n

/-- Fixed-point rendering with comma grouping and two decimal places, the
model of Python format with comma grouping and .2f on a float. -/
def formatFixed2 (q : ℚ) : String :=
  let c := roundHalfEven (100 * q)
  let sign := if q < 0 then "-" else ""
  let a := c.natAbs
  sign ++ natToCommaString (a / 100) ++ "." ++ twoDigits (a % 100)

/-- Lines 31-35: format_number(num).  Formats float(num) with a dollar sign,
comma grouping and two decimals; a ValueError or TypeError from float()
yields "Unavailable". -/
def format_number (num : JValue) : String :=
  match pyFloatQ num with
  | .ok q => "$" ++ formatFixed2 q
  | .error _ => "Unavailable"

/-- The module-level mutable state of scanner.py: the cached Bitquery access
token (lines 23-24).  Python None is modelled as JValue.null for the token
and as Option.none for the expiry timestamp (a POSIX instant in seconds,
modelled as a rational). -/
structure BQState where
  token : JValue
  expiresAt : Option ℚ

/-- Lines 43-63, the refresh path of get_bitquery_access_token: POST to the
OAuth endpoint.  The requests.post call is guarded by no try/except, so a
transport failure raises requests.RequestException out of the function; a
non-JSON 200 body raises json.JSONDecodeError at response.json(); a 200
payload without "access_token" raises KeyError.  On other statuses the
cached token is set to None (the expiry is left unchanged) and None is
returned.  On an exception the partially updated globals are not modelled:
only normally returning runs thread state. -/
def expiresInSeconds (j : JValue) : Except PyErr ℚ :=
  match pyGetD j "expires_in" (.num 3600) with
  | .error e => .error e
  | .ok (.num q) => .ok q
  | .ok (.bool b) => .ok (if b then 1 else 0)
  | .ok _ => .error .typeError

def refreshBitqueryToken (st : BQState) (now : ℚ) (resp : HttpResp) :
    Except PyErr (JValue × BQState) :=
  match resp with
  | .transportError => .error .requestException
  | .ok status body =>
    if status = 200 then
      match body with
      | none => .error .jsonDecodeError
      | some j =>
        match pyIndexKey j "access_token" with
        | .error e => .error e
        | .ok tok =>
          match expiresInSeconds j with
          | .error e => .error e
          | .ok q => .ok (tok, { token := tok, expiresAt := some (now + q) })
    else .ok (.null, { token := .null, expiresAt := st.expiresAt })

/-- Lines 38-63: get_bitquery_access_token().  Returns the cached token when
it is truthy and its expiry is strictly in the future; comparing a None
expiry against the clock raises TypeError; otherwise refreshes. -/
def get_bitquery_access_token (st : BQState) (now : ℚ) (resp : HttpResp) :
    Except PyErr (JValue × BQState) :=
  if jtruthy st.token then
    match st.expiresAt with
    | some e =>
      if now < e then .ok (st.token, st)
      else refreshBitqueryToken st now resp
    | none => .error .typeError
  else refreshBitqueryToken st now resp

/-- Lines 66-88: graphql_request(query, variables).  Authenticates, returns
None on a falsy token; posts the query (gqlResp); RequestException (either
from the transport or from raise_for_status on a 4xx/5xx status) and
JSONDecodeError are caught and yield None; otherwise data.get("data", None)
is returned (AttributeError on a non-dict payload propagates).  The query
text does not affect control flow and is not a parameter of the model. -/
def graphql_request (st : BQState) (now : ℚ) (tokenResp gqlResp : HttpResp) :
    Except PyErr (JValue × BQState) :=
  match get_bitquery_access_token st now tokenResp with
  | .error e => .error e
  | .ok (tok, st') =>
    if jtruthy tok then
      match gqlResp with
      | .transportError => .ok (.null, st')
      | .ok status body =>
        if status < 400 then
          match body with
          | none => .ok (.null, st')
          | some j =>
            match pyGetD j "data" .null with
            | .error e => .error e
            | .ok d => .ok (d, st')
        else .ok (.null, st')
    else .ok (.null, st')

/-- Lines 91-113: get_helius_asset_data(contract_address).  On a 200
response returns asset_data.get("result", default empty dict); client
errors are caught and, like non-200 statuses, fall through to return None;
a 200 body that is not JSON raises at response.json(). -/
def get_helius_asset_data (resp : HttpResp) : Except PyErr JValue :=
  match resp with
  | .transportError => .ok .null
  | .ok status body =>
    if status = 200 then
      match body with
      | none => .error .jsonDecodeError
      | some j => pyGetD j "result" (.obj [])
    else .ok .null

/-- Lines 116-138: check_migration_status(contract_address).  On a truthy
GraphQL payload inspects result.get("Solana", default).get("Instructions",
default); otherwise "Unavailable". -/
def check_migration_status (st : BQState) (now : ℚ) (tokenResp gqlResp : HttpResp) :
    Except PyErr (String × BQState) :=
  match graphql_request st now tokenResp gqlResp with
  | .error e => .error e
  | .ok (result, st') =>
    if jtruthy result then
      match pyGetD result "Solana" (.obj []) with
      | .error e => .error e
      | .ok sol =>
        match pyGetD sol "Instructions" (.arr []) with
        | .error e => .error e
        | .ok instrs =>
          .ok ((if jtruthy instrs then "Detected" else "No migration detected."), st')
    else .ok ("Unavailable", st')

/-- Lines 141-163: check_jito_bundle(contract_address), same shape as the
migration check with its own fallback string. -/
def check_jito_bundle (st : BQState) (now : ℚ) (tokenResp gqlResp : HttpResp) :
    Except PyErr (String × BQState) :=
  match graphql_request st now tokenResp gqlResp with
  | .error e => .error e
  | .ok (result, st') =>
    if jtruthy result then
      match pyGetD result "Solana" (.obj []) with
      | .error e => .error e
      | .ok sol =>
        match pyGetD sol "Instructions" (.arr []) with
        | .error e => .error e
        | .ok instrs =>
          .ok ((if jtruthy instrs then "Detected" else "No Jito Bundle detected."), st')
    else .ok ("Unavailable", st')

/-- Python order.get("status") == "approved" for one element of the orders
list; a non-dict element raises AttributeError at .get. -/
def jEqStr (v : JValue) (s : String) : Bool :=
  match v with
  | .str t => t == s
  | _ => false

def scanOrders : List JValue → Except PyErr Bool
  | [] => .ok false
  | o :: rest =>
    match o with
    | .obj kvs =>
      if jEqStr ((jlookup kvs "status").getD .null) "approved" then .ok true
      else scanOrders rest
    | _ => .error .attributeError

/-- Lines 166-180: get_dex_paid_status(chain_id, contract_address).  Client
errors are caught and fall through, like non-200 statuses, to return "N/A";
on 200, "Yes" at the first approved order, else "No".  Iterating a non-list
"orders" value is approximated: empty strings and dicts iterate zero times,
non-empty ones raise AttributeError at order.get, other values raise
TypeError. -/
def get_dex_paid_status (resp : HttpResp) : Except PyErr String :=
  match resp with
  | .transportError => .ok "N/A"
  | .ok status body =>
    if status = 200 then
      match body with
      | none => .error .jsonDecodeError
      | some j =>
        match j with
        | .obj kvs =>
          match jlookup kvs "orders" with
          | some (.arr orders) =>
            (match scanOrders orders with
             | .error e => .error e
             | .ok true => .ok "Yes"
             | .ok false => .ok "No")
          | some (.str s) => if s.isEmpty then .ok "No" else .error .attributeError
          | some (.obj l) => if l.isEmpty then .ok "No" else .error .attributeError
          | some _ => .error .typeError
          | none => .ok "No"
        | _ => .ok "No"
    else .ok "N/A"

/-- Modelled from the spec's words for the C7 refinement: some returned order
has status "approved". -/
def dexHasApproved (j : JValue) : Bool :=
  match j with
  | .obj kvs =>
    match jlookup kvs "orders" with
    | some (.arr orders) =>
      orders.any (fun o =>
        match o with
        | .obj okvs => jEqStr ((jlookup okvs "status").getD .null) "approved"
        | _ => false)
    | _ => false
  | _ => false

/-- Well-formedness of the orders payload for the C7 refinement: when an
"orders" member is present it is a list of objects. -/
def ordersWF (j : JValue) : Bool :=
  match j with
  | .obj kvs =>
    match jlookup kvs "orders" with
    | some (.arr orders) =>
      orders.all (fun o => match o with | .obj _ => true | _ => false)
    | some _ => false
    | none => true
  | _ => true

/-- The record returned by the trade-volume lookup. -/
structure TradeInfo where
  buy_volume : String
  sell_volume : String
  total_trade_volume : String
deriving DecidableEq

/-- Lines 183-207: get_latest_trade_info(token_address).  On a truthy
GraphQL payload takes result.get("Solana", default).get("DEXTradeByTokens",
default one empty row)[0] and formats the three sums, each defaulting to 0;
on a falsy payload returns the all-"Unavailable" record. -/
def get_latest_trade_info (st : BQState) (now : ℚ) (tokenResp gqlResp : HttpResp) :
    Except PyErr (TradeInfo × BQState) :=
  match graphql_request st now tokenResp gqlResp with
  | .error e => .error e
  | .ok (result, st') =>
    if jtruthy result then
      match pyGetD result "Solana" (.obj []) with
      | .error e => .error e
      | .ok sol =>
        match pyGetD sol "DEXTradeByTokens" (.arr [.obj []]) with
        | .error e => .error e
        | .ok rows =>
          match pyIndex0 rows with
          | .error e => .error e
          | .ok row =>
            match pyGetD row "buy_volume" (.num 0) with
            | .error e => .error e
            | .ok b =>
              match pyGetD row "sell_volume" (.num 0) with
              | .error e => .error e
              | .ok s =>
                match pyGetD row "total_trade_volume" (.num 0) with
                | .error e => .error e
                | .ok t =>
                  .ok (⟨format_number b, format_number s, format_number t⟩, st')
    else .ok (⟨"Unavailable", "Unavailable", "Unavailable"⟩, st')

/-- Python 10 ** decimals inside the market-cap try block.  Integer
exponents are modelled exactly; a boolean exponent behaves as 0 or 1; a
string or container exponent raises TypeError (caught by the surrounding
except clause).  Fractional exponents, which produce irrational floats, are
outside the model and mapped to TypeError. -/
def pow10 : JValue → Except PyErr ℚ
  | .num q => if q.den = 1 then .ok ((10 : ℚ) ^ q.num) else .error .typeError
  | .bool b => .ok (if b then 10 else 1)
  | _ => .error .typeError

/-- Lines 240-245, the body of the try block of the market-cap computation:
parse price and supply, adjust the supply by 10 ** decimals when decimals
is truthy, and format the product when both factors are positive. -/
def marketCapTry (tokenInfo priceInfo : JValue) : Except PyErr String :=
  match pyGetD priceInfo "price_per_token" (.num 0) with
  | .error e => .error e
  | .ok pv =>
    match pyFloatQ pv with
    | .error e => .error e
    | .ok p =>
      match pyGetD tokenInfo "supply" (.num 0) with
      | .error e => .error e
      | .ok sv =>
        match pyFloatQ sv with
        | .error e => .error e
        | .ok s =>
          match pyGetD tokenInfo "decimals" (.num 0) with
          | .error e => .error e
          | .ok dv =>
            match (if jtruthy dv then (pow10 dv).map (fun t => s / t) else .ok s :
                Except PyErr ℚ) with
            | .error e => .error e
            | .ok adj =>
              .ok (if p > 0 ∧ adj > 0 then format_number (.num (p * adj)) else "N/A")

/-- Lines 239-247: the market-cap computation with its except clause, which
catches ValueError and TypeError (only) and yields "N/A"; other exceptions
propagate.  priceInfo is the value bound at line 234. -/
def computeMarketCap (tokenInfo priceInfo : JValue) : Except PyErr String :=
  match marketCapTry tokenInfo priceInfo with
  | .ok r => .ok r
  | .error .valueError => .ok "N/A"
  | .error .typeError => .ok "N/A"
  | .error e => .error e

/-- developer_address[:8]: slicing a non-string raises TypeError. -/
def pySlice8 : JValue → Except PyErr String
  | .str s => .ok (s.take 8)
  | _ => .error .typeError

/-- Python f-string interpolation str(x), approximated on the cases that
matter (the address is a string in practice). -/
def pyStr : JValue → String
  | .null => "None"
  | .bool b => if b then "True" else "False"
  | .num q => if q.den = 1 then toString q.num else toString q.num ++ "/" ++ toString q.den
  | .str s => s
  | .arr _ => "<list>"
  | .obj _ => "<dict>"

/-- The network inputs of one invocation of the scan command: one clock
instant and one response per outbound call, in program order (the three
GraphQL-based lookups each make their own token and query calls). -/
structure ScanEnv where
  now : ℚ
  heliusResp : HttpResp
  dexResp : HttpResp
  tokenResp1 : HttpResp
  gqlResp1 : HttpResp
  tokenResp2 : HttpResp
  gqlResp2 : HttpResp
  tokenResp3 : HttpResp
  gqlResp3 : HttpResp

/-- Lines 210-277: the body of the scan command (fetch_token_status).  The
reply is modelled as the ordered list of embed fields (name, value); the
emoji prefixes of the field names are dropped and the thumbnail is not a
field.  In the branch without Helius data the code adds an "Error" field
and never assigns market_cap, so the unconditional "Market Cap" field at
line 274 reads an unbound local: NameError. -/
def fetch_token_status (st : BQState) (env : ScanEnv) :
    Except PyErr (List (String × JValue) × BQState) := do
  let helius_data ← get_helius_asset_data env.heliusResp
  let dex_paid_status ← get_dex_paid_status env.dexResp
  let (migration_status, st1) ← check_migration_status st env.now env.tokenResp1 env.gqlResp1
  let (jito_bundle_status, st2) ← check_jito_bundle st1 env.now env.tokenResp2 env.gqlResp2
  let (trade_info, st3) ← get_latest_trade_info st2 env.now env.tokenResp3 env.gqlResp3
  let (headFields, marketCapOpt) ←
    if jtruthy helius_data then do
      let token_info ← pyGetD helius_data "token_info" (.obj [])
      let price_info ← pyGetD token_info "price_info" (.obj [])
      let content ← pyGetD helius_data "content" (.obj [])
      let metadata ← pyGetD content "metadata" (.obj [])
      let authorities ← pyGetD helius_data "authorities" (.arr [.obj []])
      let auth0 ← pyIndex0 authorities
      let developer_address ← pyGetD auth0 "address" (.str "N/A")
      let market_cap ← computeMarketCap token_info price_info
      let nameV ← pyGetD metadata "name" (.str "N/A")
      let symV ← pyGetD token_info "symbol" (.str "N/A")
      let dev8 ← pySlice8 developer_address
      let devField :=
        "[" ++ dev8 ++ "...](https://explorer.solana.com/address/" ++
          pyStr developer_address ++ ")"
      pure (([("Name", nameV), ("Symbol", symV), ("Developer", JValue.str devField)] :
          List (String × JValue)), some market_cap)
    else
      pure (([("Error", JValue.str "No data found from Helius.")] :
          List (String × JValue)), (none : Option String))
  let fields := headFields ++
    [("Dex Paid?", JValue.str dex_paid_status),
     ("Jito Bundle Status", JValue.str jito_bundle_status),
     ("Migration Status", JValue.str migration_status),
     ("Latest Trade Information", JValue.str "━━━━━━━━━━━━━━━"),
     ("Buy Volume (USD)", JValue.str trade_info.buy_volume),
     ("Sell Volume (USD)", JValue.str trade_info.sell_volume),
     ("Total Trade Volume (USD)", JValue.str trade_info.total_trade_volume)]
  match marketCapOpt with
  | some m => .ok (fields ++ [("Market Cap", JValue.str m)], st3)
  | none => .error .nameError

/-! Shared evaluation lemmas. -/

theorem roundHalfEven_zero : roundHalfEven 0 = 0 := by
  have hf : ratFloor (0 : ℚ) = 0 := rfl
  unfold roundHalfEven
  rw [hf]
  norm_num

theorem format_number_zero : format_number (.num 0) = "$0.00" := by
  have h1 : (100 : ℚ) * 0 = 0 := by norm_num
  have h2 : format_number (.num 0) = "$" ++ formatFixed2 0 := rfl
  rw [h2]
  unfold formatFixed2
  rw [h1, roundHalfEven_zero]
  norm_num
  rfl

/-! Claim theorems. -/

/-- C8: the numeric formatter is total: formatting None yields the sentinel,
and formatting any value yields either a dollar-prefixed comma-grouped
two-decimal rendering of the parsed number or the "Unavailable" sentinel when
the value does not parse as a number; no exception escapes (the function is a
total Lean function into String). -/
theorem c8_format_number_total :
    format_number .null = "Unavailable" ∧
    ∀ v : JValue,
      (∃ q : ℚ, pyFloatQ v = .ok q ∧ format_number v = "$" ++ formatFixed2 q) ∨
      ((pyFloatQ v).isOk = false ∧ format_number v = "Unavailable") := by
  refine ⟨rfl, fun v => ?_⟩
  cases h : pyFloatQ v with
  | ok q => exact .inl ⟨q, rfl, by unfold format_number; rw [h]⟩
  | error e => exact .inr ⟨rfl, by unfold format_number; rw [h]⟩

/-- C1 (code bug evaluation): with no cached token and the OAuth token
endpoint failing at the transport level, the requests.RequestException raised
inside get_bitquery_access_token propagates through check_migration_status
and aborts the scan command, which therefore never sends a summary. -/
theorem c1_scan_raises_on_token_transport_error :
    fetch_token_status ⟨.null, none⟩
      ⟨0, .transportError, .transportError, .transportError, .ok 200 none,
        .ok 200 none, .ok 200 none, .ok 200 none, .ok 200 none⟩ =
      .error .requestException := rfl

/-- C2 (code bug evaluation): when the Helius lookup yields no data (here a
non-200 status) the scan command takes the branch that never assigns
market_cap, adds an "Error" field in place of Name, Symbol and Developer, and
then crashes with NameError at the unconditional "Market Cap" field, so no
summary with sentinel fields is produced. -/
theorem c2_scan_name_error_without_helius_data :
    fetch_token_status ⟨.str "t", some 10⟩
      ⟨0, .ok 500 none, .transportError, .transportError, .transportError,
        .transportError, .transportError, .transportError, .transportError⟩ =
      .error .nameError := rfl

/-- C6 (code bug evaluation): with no cached token and a transport failure of
the OAuth token request, both status lookups raise requests.RequestException
instead of returning one of the three documented strings. -/
theorem c6_status_lookups_raise_on_token_transport_error :
    check_migration_status ⟨.null, none⟩ 0 .transportError (.ok 200 (some (.obj []))) =
      .error .requestException ∧
    check_jito_bundle ⟨.null, none⟩ 0 .transportError (.ok 200 (some (.obj []))) =
      .error .requestException :=
  ⟨rfl, rfl⟩

/-- C3 counterexample: a successful GraphQL reply whose Solana object carries
no DEXTradeByTokens rows makes the trade-volume lookup report the formatted
zero for all three values, not the "Unavailable" sentinel the claim
requires. -/
theorem c3_no_rows_counterexample :
    get_latest_trade_info ⟨.str "t", some 10⟩ 0 .transportError
        (.ok 200 (some (.obj [("data", .obj [("Solana", .obj [])])]))) =
      .ok (⟨"$0.00", "$0.00", "$0.00"⟩, ⟨.str "t", some 10⟩) ∧
    ("$0.00" : String) ≠ "Unavailable" := by
  constructor
  · have h : get_latest_trade_info ⟨.str "t", some 10⟩ 0 .transportError
        (.ok 200 (some (.obj [("data", .obj [("Solana", .obj [])])]))) =
        .ok (⟨format_number (.num 0), format_number (.num 0), format_number (.num 0)⟩,
          ⟨.str "t", some 10⟩) := rfl
    rw [h, format_number_zero]
  · decide

/-- C3 (amended): each of the three volume values is the "Unavailable"
sentinel exactly when the GraphQL query fails (falsy payload); when the query
succeeds but carries no rows — the row list missing and defaulting to a
single empty row, or the first row empty — the three values render as the
formatted zero "$0.00"; and a present but empty row list raises IndexError
rather than returning a record. -/
theorem c3_trade_info_amended :
    (∀ (st st' : BQState) (now : ℚ) (tr gq : HttpResp) (d : JValue),
       graphql_request st now tr gq = .ok (d, st') → jtruthy d = false →
       get_latest_trade_info st now tr gq =
         .ok (⟨"Unavailable", "Unavailable", "Unavailable"⟩, st')) ∧
    (∀ (st st' : BQState) (now : ℚ) (tr gq : HttpResp) (d sol : JValue)
       (rest : List JValue),
       graphql_request st now tr gq = .ok (d, st') → jtruthy d = true →
       pyGetD d "Solana" (.obj []) = .ok sol →
       pyGetD sol "DEXTradeByTokens" (.arr [.obj []]) = .ok (.arr (.obj [] :: rest)) →
       get_latest_trade_info st now tr gq = .ok (⟨"$0.00", "$0.00", "$0.00"⟩, st')) ∧
    (∀ (st st' : BQState) (now : ℚ) (tr gq : HttpResp) (d sol : JValue),
       graphql_request st now tr gq = .ok (d, st') → jtruthy d = true →
       pyGetD d "Solana" (.obj []) = .ok sol →
       pyGetD sol "DEXTradeByTokens" (.arr [.obj []]) = .ok (.arr []) →
       get_latest_trade_info st now tr gq = .error .indexError) := by
  refine ⟨fun st st' now tr gq d h ht => ?_,
          fun st st' now tr gq d sol rest h ht hsol hrows => ?_,
          fun st st' now tr gq d sol h ht hsol hrows => ?_⟩
  · simp [get_latest_trade_info, h, ht]
  · simp only [get_latest_trade_info, h, ht, hsol, hrows]
    simp [pyIndex0, pyGetD, jlookup, format_number_zero]
  · simp only [get_latest_trade_info, h, ht, hsol, hrows]
    simp [pyIndex0]

/-- C3 (amended) witness: a failing query (transport error on the GraphQL
post, valid cached token) yields the all-"Unavailable" record. -/
theorem c3_trade_info_amended_witness :
    get_latest_trade_info ⟨.str "t", some 10⟩ 0 .transportError .transportError =
      .ok (⟨"Unavailable", "Unavailable", "Unavailable"⟩, ⟨.str "t", some 10⟩) :=
  c3_trade_info_amended.1 ⟨.str "t", some 10⟩ ⟨.str "t", some 10⟩ 0
    .transportError .transportError .null rfl rfl

/-- C10: when the GraphQL query succeeds with at least one row, each volume
value is the formatted lookup of its key with default 0, so a row missing a
volume key renders that value as the formatted zero "$0.00" — the same
rendering as a genuinely zero volume — and not as "Unavailable". -/
theorem c10_missing_volume_keys_render_zero (st st' : BQState) (now : ℚ)
    (tr gq : HttpResp) (d sol : JValue) (row : List (String × JValue))
    (rest : List JValue)
    (h : graphql_request st now tr gq = .ok (d, st'))
    (ht : jtruthy d = true)
    (hsol : pyGetD d "Solana" (.obj []) = .ok sol)
    (hrows : pyGetD sol "DEXTradeByTokens" (.arr [.obj []]) =
      .ok (.arr (.obj row :: rest))) :
    get_latest_trade_info st now tr gq =
      .ok (⟨format_number ((jlookup row "buy_volume").getD (.num 0)),
            format_number ((jlookup row "sell_volume").getD (.num 0)),
            format_number ((jlookup row "total_trade_volume").getD (.num 0))⟩, st') ∧
    format_number (.num 0) = "$0.00" := by
  constructor
  · simp only [get_latest_trade_info, h, ht, hsol, hrows]
    simp [pyIndex0, pyGetD]
  · exact format_number_zero

/-- C10 witness: a reply with one empty row renders all three volumes as the
formatted zero. -/
theorem c10_missing_volume_keys_render_zero_witness :
    (get_latest_trade_info ⟨.str "t", some 10⟩ 0 .transportError
        (.ok 200 (some (.obj [("data", .obj [("Solana",
          .obj [("DEXTradeByTokens", .arr [.obj []])])])]))) =
      .ok (⟨format_number ((jlookup [] "buy_volume").getD (.num 0)),
            format_number ((jlookup [] "sell_volume").getD (.num 0)),
            format_number ((jlookup [] "total_trade_volume").getD (.num 0))⟩,
        ⟨.str "t", some 10⟩) ∧
     format_number (.num 0) = "$0.00") :=
  c10_missing_volume_keys_render_zero ⟨.str "t", some 10⟩ ⟨.str "t", some 10⟩ 0
    .transportError
    (.ok 200 (some (.obj [("data", .obj [("Solana",
      .obj [("DEXTradeByTokens", .arr [.obj []])])])])))
    (.obj [("Solana", .obj [("DEXTradeByTokens", .arr [.obj []])])])
    (.obj [("DEXTradeByTokens", .arr [.obj []])]) [] [] rfl rfl rfl rfl

theorem scanOrders_eq_any (orders : List JValue)
    (h : orders.all (fun o => match o with | .obj _ => true | _ => false) = true) :
    scanOrders orders =
      .ok (orders.any (fun o =>
        match o with
        | .obj okvs => jEqStr ((jlookup okvs "status").getD .null) "approved"
        | _ => false)) := by
  induction orders with
  | nil => rfl
  | cons o rest ih =>
    rw [List.all_cons, Bool.and_eq_true] at h
    cases o with
    | obj okvs =>
      rw [List.any_cons]
      by_cases hap : jEqStr ((jlookup okvs "status").getD .null) "approved" = true
      · simp [scanOrders, hap]
      · simp only [Bool.not_eq_true] at hap
        simp [scanOrders, hap, ih h.2]
    | null => simp at h
    | bool b => simp at h
    | num q => simp at h
    | str s => simp at h
    | arr xs => simp at h

/-- C7 counterexample: the code tests for status exactly 200, so a 201
response carrying an approved order yields "N/A", while the claim requires
"Yes" on any 2xx response. -/
theorem c7_dex_paid_counterexample :
    get_dex_paid_status (.ok 201 (some (.obj [("orders",
        .arr [.obj [("status", .str "approved")]])]))) = .ok "N/A" ∧
    ("N/A" : String) ≠ "Yes" :=
  ⟨rfl, by decide⟩

/-- C7 (amended): on transport failure or a non-200 HTTP status the lookup
returns the "N/A" sentinel and execution continues; on a 200 response whose
orders member, when present, is a list of objects, it returns "Yes" exactly
when some returned order has status "approved" and "No" otherwise. -/
theorem c7_dex_paid_amended :
    (get_dex_paid_status .transportError = .ok "N/A") ∧
    (∀ (status : Nat) (body : Option JValue), status ≠ 200 →
       get_dex_paid_status (.ok status body) = .ok "N/A") ∧
    (∀ j : JValue, ordersWF j = true →
       get_dex_paid_status (.ok 200 (some j)) =
         .ok (if dexHasApproved j then "Yes" else "No")) := by
  refine ⟨rfl, fun status body hs => ?_, fun j hwf => ?_⟩
  · simp [get_dex_paid_status, hs]
  · cases j with
    | obj kvs =>
      have hwf' : (match jlookup kvs "orders" with
          | some (JValue.arr orders) =>
            orders.all (fun o => match o with | JValue.obj _ => true | _ => false)
          | some _ => false
          | none => true) = true := hwf
      have hgoal : get_dex_paid_status (.ok 200 (some (.obj kvs))) =
          (match jlookup kvs "orders" with
            | some (.arr orders) =>
              (match scanOrders orders with
               | .error e => .error e
               | .ok true => .ok "Yes"
               | .ok false => .ok "No")
            | some (.str s) => if s.isEmpty then .ok "No" else .error .attributeError
            | some (.obj l) => if l.isEmpty then .ok "No" else .error .attributeError
            | some _ => .error .typeError
            | none => .ok "No") := rfl
      have hdex : dexHasApproved (.obj kvs) =
          (match jlookup kvs "orders" with
            | some (.arr orders) => orders.any (fun o => match o with
                | .obj okvs => jEqStr ((jlookup okvs "status").getD .null) "approved"
                | _ => false)
            | _ => false) := rfl
      rw [hgoal, hdex]
      cases hord : jlookup kvs "orders" with
      | none => rfl
      | some v =>
        rw [hord] at hwf'
        cases v with
        | arr orders =>
          have hwf2 : orders.all
              (fun o => match o with | JValue.obj _ => true | _ => false) = true := hwf'
          show (match scanOrders orders with
              | Except.error e => Except.error e
              | Except.ok true => Except.ok "Yes"
              | Except.ok false => Except.ok "No") =
            Except.ok (if (orders.any (fun o => match o with
                | JValue.obj okvs =>
                  jEqStr ((jlookup okvs "status").getD JValue.null) "approved"
                | _ => false)) = true then "Yes" else "No")
          rw [scanOrders_eq_any orders hwf2]
          cases ha : orders.any (fun o => match o with
              | JValue.obj okvs => jEqStr ((jlookup okvs "status").getD .null) "approved"
              | _ => false) with
          | false => rfl
          | true => rfl
        | null => exact Bool.noConfusion hwf'
        | bool b => exact Bool.noConfusion hwf'
        | num q => exact Bool.noConfusion hwf'
        | str s => exact Bool.noConfusion hwf'
        | obj l => exact Bool.noConfusion hwf'
    | null => rfl
    | bool b => rfl
    | num q => rfl
    | str s => rfl
    | arr xs => rfl

/-- C7 (amended) witness: a 200 response with one approved order evaluates
through the amended theorem. -/
theorem c7_dex_paid_amended_witness :
    get_dex_paid_status (.ok 200 (some (.obj [("orders",
        .arr [.obj [("status", .str "approved")]])]))) =
      .ok (if dexHasApproved (.obj [("orders",
        .arr [.obj [("status", .str "approved")]])]) then "Yes" else "No") :=
  c7_dex_paid_amended.2.2 (.obj [("orders",
    .arr [.obj [("status", .str "approved")]])]) rfl

/-- C4: when price, supply and decimals parse, the market cap equals
price_per_token * (raw_supply / 10 ^ decimals) and is formatted exactly when
both the price and the adjusted supply are positive, the sentinel "N/A"
otherwise; and in each unparsable case — a price value that does not parse
as a number, a supply value that does not parse as a number, or a truthy
decimals value on which 10 ** decimals raises TypeError (any non-number) —
the ValueError or TypeError is caught by the except clause and the field is
the sentinel. -/
theorem c4_market_cap_formula :
    (∀ (ti pi pv sv : JValue) (p s : ℚ) (d : ℤ),
       pyGetD pi "price_per_token" (.num 0) = .ok pv →
       pyFloatQ pv = .ok p →
       pyGetD ti "supply" (.num 0) = .ok sv →
       pyFloatQ sv = .ok s →
       pyGetD ti "decimals" (.num 0) = .ok (.num (d : ℚ)) →
       computeMarketCap ti pi = .ok
         (if p > 0 ∧ s / (10 : ℚ) ^ d > 0 then
           format_number (.num (p * (s / (10 : ℚ) ^ d))) else "N/A")) ∧
    (∀ (ti pi pv : JValue),
       pyGetD pi "price_per_token" (.num 0) = .ok pv →
       (pyFloatQ pv = .error .valueError ∨ pyFloatQ pv = .error .typeError) →
       computeMarketCap ti pi = .ok "N/A") ∧
    (∀ (ti pi pv sv : JValue) (p : ℚ),
       pyGetD pi "price_per_token" (.num 0) = .ok pv →
       pyFloatQ pv = .ok p →
       pyGetD ti "supply" (.num 0) = .ok sv →
       (pyFloatQ sv = .error .valueError ∨ pyFloatQ sv = .error .typeError) →
       computeMarketCap ti pi = .ok "N/A") ∧
    (∀ (ti pi pv sv dv : JValue) (p s : ℚ),
       pyGetD pi "price_per_token" (.num 0) = .ok pv →
       pyFloatQ pv = .ok p →
       pyGetD ti "supply" (.num 0) = .ok sv →
       pyFloatQ sv = .ok s →
       pyGetD ti "decimals" (.num 0) = .ok dv →
       jtruthy dv = true →
       pow10 dv = .error .typeError →
       computeMarketCap ti pi = .ok "N/A") := by
  refine ⟨?_, ?_, ?_, ?_⟩
  · intro ti pi pv sv p s d hpv hp hsv hs hdv
    simp only [computeMarketCap, marketCapTry, hpv, hp, hsv, hs, hdv]
    by_cases hd : d = 0
    · subst hd
      simp [jtruthy, zpow_zero]
    · simp [jtruthy, pow10, hd, Rat.den_intCast, Rat.num_intCast, Except.map]
  · intro ti pi pv hpv herr
    rcases herr with h | h <;> simp [computeMarketCap, marketCapTry, hpv, h]
  · intro ti pi pv sv p hpv hp hsv herr
    rcases herr with h | h <;> simp [computeMarketCap, marketCapTry, hpv, hp, hsv, h]
  · intro ti pi pv sv dv p s hpv hp hsv hs hdv hj hpow
    simp [computeMarketCap, marketCapTry, hpv, hp, hsv, hs, hdv, hj, hpow, Except.map]

/-- C4 witness: price 2, raw supply 1000, one decimal takes the formula
path; a None supply (TypeError in float) and a truthy string decimals value
(TypeError in 10 ** decimals) each take the sentinel path; every hypothesis
is discharged by evaluation. -/
theorem c4_market_cap_formula_witness :
    (computeMarketCap
        (.obj [("supply", .num 1000), ("decimals", .num ((1 : ℤ) : ℚ))])
        (.obj [("price_per_token", .num 2)]) =
      .ok (if (2 : ℚ) > 0 ∧ (1000 : ℚ) / (10 : ℚ) ^ (1 : ℤ) > 0 then
        format_number (.num ((2 : ℚ) * ((1000 : ℚ) / (10 : ℚ) ^ (1 : ℤ)))) else "N/A")) ∧
    (computeMarketCap (.obj [("supply", .null)])
        (.obj [("price_per_token", .num 2)]) = .ok "N/A") ∧
    (computeMarketCap (.obj [("supply", .num 1000), ("decimals", .str "8")])
        (.obj [("price_per_token", .num 2)]) = .ok "N/A") :=
  ⟨c4_market_cap_formula.1
    (.obj [("supply", .num 1000), ("decimals", .num ((1 : ℤ) : ℚ))])
    (.obj [("price_per_token", .num 2)])
    (.num 2) (.num 1000) 2 1000 1 rfl rfl rfl rfl rfl,
   c4_market_cap_formula.2.2.1
    (.obj [("supply", .null)]) (.obj [("price_per_token", .num 2)])
    (.num 2) .null 2 rfl rfl rfl (.inr rfl),
   c4_market_cap_formula.2.2.2
    (.obj [("supply", .num 1000), ("decimals", .str "8")])
    (.obj [("price_per_token", .num 2)])
    (.num 2) (.num 1000) (.str "8") 2 1000 rfl rfl rfl rfl rfl rfl rfl⟩

/-- C5: a cached truthy token with an unexpired expiry is returned unchanged
without issuing an authentication request (the result does not depend on the
response), and every GraphQL call then behaves identically whatever the
token endpoint would answer; when the cached token is missing or expired a
fresh authentication request is issued, and a 200 reply stores the token
with expiry now + expires_in; a missing expires_in declaration defaults to
3600 seconds. -/
theorem c5_token_cache_reuse (st : BQState) (now e : ℚ)
    (htok : jtruthy st.token = true) (hexp : st.expiresAt = some e)
    (hlt : now < e) :
    (∀ resp, get_bitquery_access_token st now resp = .ok (st.token, st)) ∧
    (∀ tr tr' gq, graphql_request st now tr gq = graphql_request st now tr' gq) ∧
    (∀ (st₂ : BQState) (now₂ q : ℚ) (j tok : JValue),
       (jtruthy st₂.token = false ∨ ∃ e₂, st₂.expiresAt = some e₂ ∧ e₂ ≤ now₂) →
       pyIndexKey j "access_token" = .ok tok →
       expiresInSeconds j = .ok q →
       get_bitquery_access_token st₂ now₂ (.ok 200 (some j)) =
         .ok (tok, ⟨tok, some (now₂ + q)⟩)) ∧
    (∀ kvs : List (String × JValue), jlookup kvs "expires_in" = none →
       expiresInSeconds (.obj kvs) = .ok 3600) := by
  have ha : ∀ resp, get_bitquery_access_token st now resp = .ok (st.token, st) := by
    intro resp
    unfold get_bitquery_access_token
    rw [htok, hexp]
    simp [hlt]
  refine ⟨ha, fun tr tr' gq => ?_, fun st₂ now₂ q j tok hc hkey hexpq => ?_,
    fun kvs hk => ?_⟩
  · unfold graphql_request
    rw [ha tr, ha tr']
  · have hrefresh : refreshBitqueryToken st₂ now₂ (.ok 200 (some j)) =
        .ok (tok, ⟨tok, some (now₂ + q)⟩) := by
      simp only [refreshBitqueryToken, hkey, hexpq]
      simp
    rcases hc with hf | ⟨e₂, he₂, hle⟩
    · unfold get_bitquery_access_token
      rw [hf, hrefresh]
      simp
    · unfold get_bitquery_access_token
      cases htk : jtruthy st₂.token with
      | false => rw [hrefresh]; simp
      | true =>
        rw [he₂, if_pos rfl]
        show (if now₂ < e₂ then Except.ok (st₂.token, st₂)
            else refreshBitqueryToken st₂ now₂ (HttpResp.ok 200 (some j))) =
          Except.ok (tok, ⟨tok, some (now₂ + q)⟩)
        rw [if_neg (not_lt.mpr hle), hrefresh]
  · simp only [expiresInSeconds, pyGetD, hk]
    simp

/-- C5 witness: a state holding token "t" valid until instant 10, queried at
instant 0, satisfies the hypotheses of the cache-reuse theorem. -/
theorem c5_token_cache_reuse_witness :
    (∀ resp, get_bitquery_access_token ⟨.str "t", some 10⟩ 0 resp =
      .ok (.str "t", ⟨.str "t", some 10⟩)) ∧
    (∀ tr tr' gq, graphql_request ⟨.str "t", some 10⟩ 0 tr gq =
      graphql_request ⟨.str "t", some 10⟩ 0 tr' gq) ∧
    (∀ (st₂ : BQState) (now₂ q : ℚ) (j tok : JValue),
       (jtruthy st₂.token = false ∨ ∃ e₂, st₂.expiresAt = some e₂ ∧ e₂ ≤ now₂) →
       pyIndexKey j "access_token" = .ok tok →
       expiresInSeconds j = .ok q →
       get_bitquery_access_token st₂ now₂ (.ok 200 (some j)) =
         .ok (tok, ⟨tok, some (now₂ + q)⟩)) ∧
    (∀ kvs : List (String × JValue), jlookup kvs "expires_in" = none →
       expiresInSeconds (.obj kvs) = .ok 3600) :=
  c5_token_cache_reuse ⟨.str "t", some 10⟩ 0 10 rfl rfl (by norm_num)

theorem refreshBitqueryToken_cases (st : BQState) (now : ℚ) (resp : HttpResp)
    (r : JValue) (st' : BQState)
    (h : refreshBitqueryToken st now resp = .ok (r, st')) :
    (st'.token = .null ∧ r = .null) ∨
    (∃ (j tok : JValue) (q : ℚ), resp = .ok 200 (some j) ∧
       pyIndexKey j "access_token" = .ok tok ∧ expiresInSeconds j = .ok q ∧
       st' = ⟨tok, some (now + q)⟩ ∧ r = tok) := by
  cases resp with
  | transportError => exact absurd h (by simp [refreshBitqueryToken])
  | ok status body =>
    replace h : (if status = 200 then
        (match body with
         | none => (Except.error PyErr.jsonDecodeError : Except PyErr (JValue × BQState))
         | some j =>
           match pyIndexKey j "access_token" with
           | Except.error e => Except.error e
           | Except.ok tok =>
             match expiresInSeconds j with
             | Except.error e => Except.error e
             | Except.ok q =>
               Except.ok (tok, ({ token := tok, expiresAt := some (now + q) } : BQState)))
      else Except.ok (JValue.null, { token := JValue.null, expiresAt := st.expiresAt })) =
        Except.ok (r, st') := h
    by_cases hs : status = 200
    · subst hs
      rw [if_pos rfl] at h
      cases body with
      | none => exact absurd h (by simp)
      | some j =>
        replace h : (match pyIndexKey j "access_token" with
            | Except.error e => (Except.error e : Except PyErr (JValue × BQState))
            | Except.ok tok =>
              match expiresInSeconds j with
              | Except.error e => Except.error e
              | Except.ok q =>
                Except.ok (tok, ({ token := tok, expiresAt := some (now + q) } : BQState))) =
            Except.ok (r, st') := h
        cases hkey : pyIndexKey j "access_token" with
        | error e => rw [hkey] at h; exact absurd h (by simp)
        | ok tok =>
          rw [hkey] at h
          replace h : (match expiresInSeconds j with
              | Except.error e => (Except.error e : Except PyErr (JValue × BQState))
              | Except.ok q =>
                Except.ok (tok, ({ token := tok, expiresAt := some (now + q) } : BQState))) =
              Except.ok (r, st') := h
          cases hq : expiresInSeconds j with
          | error e => rw [hq] at h; exact absurd h (by simp)
          | ok q =>
            rw [hq] at h
            simp only [Except.ok.injEq, Prod.mk.injEq] at h
            exact .inr ⟨j, tok, q, rfl, hkey, hq, h.2.symm, h.1.symm⟩
    · rw [if_neg hs] at h
      simp only [Except.ok.injEq, Prod.mk.injEq] at h
      refine .inl ⟨?_, h.1.symm⟩
      rw [← h.2]

/-- C9: whenever get_bitquery_access_token returns normally, either the cache
was reused unchanged, or the cached token was reset to None (failed refresh,
and the returned value is None), or the cache holds exactly the access_token
of a 200 authentication response paired with the expiry now + expires_in;
and whenever the returned token is falsy, every GraphQL call returns None
without consulting the query response, so a failed credential is never
used. -/
theorem c9_token_state_invariant (st : BQState) (now : ℚ) (resp : HttpResp)
    (r : JValue) (st' : BQState)
    (h : get_bitquery_access_token st now resp = .ok (r, st')) :
    ((st' = st ∧ r = st.token) ∨
     (st'.token = .null ∧ r = .null) ∨
     (∃ (j tok : JValue) (q : ℚ), resp = .ok 200 (some j) ∧
        pyIndexKey j "access_token" = .ok tok ∧ expiresInSeconds j = .ok q ∧
        st' = ⟨tok, some (now + q)⟩ ∧ r = tok)) ∧
    (jtruthy r = false → ∀ gq, graphql_request st now resp gq = .ok (.null, st')) := by
  constructor
  · have h0 := h
    unfold get_bitquery_access_token at h0
    cases htk : jtruthy st.token with
    | true =>
      rw [htk, if_pos rfl] at h0
      cases hea : st.expiresAt with
      | none => rw [hea] at h0; exact absurd h0 (by simp)
      | some e2 =>
        rw [hea] at h0
        replace h0 : (if now < e2 then Except.ok (st.token, st)
            else refreshBitqueryToken st now resp) = Except.ok (r, st') := h0
        by_cases hlt : now < e2
        · rw [if_pos hlt] at h0
          simp only [Except.ok.injEq, Prod.mk.injEq] at h0
          exact .inl ⟨h0.2.symm, h0.1.symm⟩
        · rw [if_neg hlt] at h0
          exact .inr (refreshBitqueryToken_cases st now resp r st' h0)
    | false =>
      rw [htk, if_neg (by simp)] at h0
      exact .inr (refreshBitqueryToken_cases st now resp r st' h0)
  · intro hr gq
    unfold graphql_request
    rw [h]
    simp [hr]

/-- C9 witness: the cache-hit case, token "t" valid until instant 10 queried
at instant 0; the invariant holds at this concrete run. -/
theorem c9_token_state_invariant_witness :
    (((⟨.str "t", some 10⟩ : BQState) = ⟨.str "t", some 10⟩ ∧
        JValue.str "t" = (⟨JValue.str "t", some 10⟩ : BQState).token) ∨
     ((⟨.str "t", some 10⟩ : BQState).token = .null ∧ JValue.str "t" = .null) ∨
     (∃ (j tok : JValue) (q : ℚ), (HttpResp.ok 200 none) = .ok 200 (some j) ∧
        pyIndexKey j "access_token" = .ok tok ∧ expiresInSeconds j = .ok q ∧
        (⟨.str "t", some 10⟩ : BQState) = ⟨tok, some (0 + q)⟩ ∧
        JValue.str "t" = tok)) ∧
    (jtruthy (.str "t") = false → ∀ gq,
       graphql_request ⟨.str "t", some 10⟩ 0 (.ok 200 none) gq =
         .ok (.null, ⟨.str "t", some 10⟩)) :=
  c9_token_state_invariant ⟨.str "t", some 10⟩ 0 (.ok 200 none)
    (.str "t") ⟨.str "t", some 10⟩ rfl

end CopyBot
